import Mathlib

/-!
Formal model of the `btt` trading bot.

The repository consists of three variants of a `BinanceTrader` class:
`src/src/bot.js` (the current variant, with an adaptive sell clearance,
a volume limit and a liquidity check), and two earlier variants
(`src/unnamed/part_000`, `src/unnamed/part_001`).  All exchange and
persistence access is through external collaborators, so every external
result (balance, ticker price, order book, order outcome, persisted
record) is an explicit input of the modelled functions, and the database
writes a function performs are returned as explicit `DbCall` values.

JavaScript numbers are modelled by `ℚ`.  A value that can be `null`
(a failed fetch) is an `Option ℚ`; `Number(undefined)` (`NaN`, produced
by a missing config field) is modelled by `none` in `Option ℚ` together
with comparison helpers that return `false` on `none`, matching the JS
rule that every relational comparison with `NaN` is false and that
`null` coerces to `0` in relational comparisons.
-/

/-- Rounding of `Number.prototype.toFixed(f)`: round to `f` decimal
places, nearest, ties towards the larger value (ECMAScript picks the
larger candidate integer). -/
def toFixedQ (f : ℕ) (x : ℚ) : ℚ :=
  (Int.floor (x * 10 ^ f + 1 / 2) : ℚ) / 10 ^ f

/-- Rounding of `Big.prototype.toFixed(f)` of big.js: round to `f`
decimal places, nearest, ties away from zero (big.js default rounding
mode `RM = 1`). -/
def bigToFixedQ (f : ℕ) (x : ℚ) : ℚ :=
  if x < 0 then -(toFixedQ f (-x)) else toFixedQ f x

/-- JS `a < b` where `b` may be `NaN` (modelled `none`): any comparison
with `NaN` is false.  Used for `this.sellAmount < this.maxVolume`, where
`maxVolume = Number(tradeConfig.limitBase)` is `NaN` when the config has
no `limitBase`. -/
def jsLtOpt (a : ℚ) (b : Option ℚ) : Bool :=
  match b with
  | none => false
  | some m => decide (a < m)

/-- JS `a > b` where `a` may be `null` (a failed balance fetch): `null`
coerces to `0` in a relational comparison. -/
def jsGtOpt (a : Option ℚ) (b : ℚ) : Bool :=
  match a with
  | none => decide ((0 : ℚ) > b)
  | some x => decide (x > b)

/-- The decision of one `_trade` tick: place a market sell, a market buy,
or do nothing. -/
inductive TradeAction where
  | noAction : TradeAction
  | sell (amount : ℚ) : TradeAction
  | buy (amount : ℚ) : TradeAction
deriving DecidableEq

/-- Whether an action is a sell. -/
def TradeAction.isSell : TradeAction → Bool
  | .sell _ => true
  | _ => false

/-- Whether an action is a buy. -/
def TradeAction.isBuy : TradeAction → Bool
  | .buy _ => true
  | _ => false

/-- A call made to the persistence collaborator (`DatabaseLocal`):
`setData(amount, price, fee)` after a sell, `updateData(value)` after a
buy. -/
inductive DbCall where
  | setData (amount price fee : ℚ) : DbCall
  | updateData (value : ℚ) : DbCall
deriving DecidableEq

/-- The record returned by the exchange for a placed market order:
`{ status, price, fee }`.  `feeCost` models the optional `fee?.cost`. -/
structure OrderResult where
  status : String
  price : ℚ
  feeCost : Option ℚ
deriving DecidableEq

/-- The persisted record, after the defaults of
`const { averageSellPrice = 0, amount = 0, fee = 0 } = await this.dbService.getData()`. -/
structure DbData where
  averageSellPrice : ℚ
  amount : ℚ
  fee : ℚ
deriving DecidableEq

namespace Btt

/-! Model of `src/src/bot.js`. -/

/-- Constant `EXCHANGE_FEE = 0.998` of `bot.js`. -/
def EXCHANGE_FEE : ℚ := 998 / 1000

/-- Constant `EXCHANGE_FEE_PERCENT = 0.002` of `bot.js`. -/
def EXCHANGE_FEE_PERCENT : ℚ := 2 / 1000

/-- The mutable instance fields of the `BinanceTrader` class that the
trading and command logic reads.  `maxVolume = Number(tradeConfig.limitBase)`
is `none` when `limitBase` is absent from the config (`NaN`).
`isTrading` is the field created by the `set` command handler
(`this.isTrading = false`); the constructor never assigns it, so it
starts as `none`. -/
structure BinanceTrader where
  maxVolume : Option ℚ
  volume : ℚ
  sellClearance : ℚ
  buyClearance : ℚ
  bufferAsk : ℚ
  trading : Bool
  isTrading : Option Bool
deriving DecidableEq

/-- Model of `_getSellClearanceProgressive()`:
`rangeIndex = Math.floor(sellAmount / 100)`;
`Number((sellClearance + rangeIndex * 0.1).toFixed(4))`. -/
def getSellClearanceProgressive (sellClearance heldAmount : ℚ) : ℚ :=
  toFixedQ 4 (sellClearance + (Int.floor (heldAmount / 100) : ℚ) * (1 / 10))

/-- Model of `_canBuyWithFlexibility()`: fetch the order book (`obFetch`,
`none` when the fetch throws), take the first 20 ask levels
(`asks.slice(0, 20)`), keep those priced at most
`currentPrice + bufferAsk`, sum their volumes with
`reduce((acc, [, a]) => acc + a, 0)`, and require the sum to reach
`sellAmount`; a fetch failure is caught and yields `false`. -/
def canBuyWithFlexibility (obFetch : Option (List (ℚ × ℚ)))
    (currentPrice bufferAsk sellAmount : ℚ) : Bool :=
  match obFetch with
  | none => false
  | some orderBookAsks =>
    let asks := orderBookAsks.take 20
    let filteredAsks := asks.filter (fun lvl => decide (lvl.1 ≤ currentPrice + bufferAsk))
    let totalVolume := (filteredAsks.map (fun lvl => lvl.2)).foldl (· + ·) 0
    decide (totalVolume ≥ sellAmount)

/-- The decision of `_trade()`.  Inputs: the instance (`this`), the
balance fetch result, the persisted record, the ticker fetch result and
the order-book fetch result.  Source structure: the guard
`if (!this.currentPrice || !this.trading) return` (a fetched price of
`0` is falsy, like `null`); the bootstrap `averageSellPrice === 0`
branch; then two `if` blocks on the sign of `priceDifference`, each with
its inner conditions conjoined here (when a block's outer sign test
holds but its inner test fails, control falls through to the other
block, whose opposite sign test then fails, so nothing happens -- the
flattening is exact). -/
def trade (self : BinanceTrader) (baseBalance : Option ℚ) (db : DbData)
    (currentPrice : Option ℚ) (obFetch : Option (List (ℚ × ℚ))) : TradeAction :=
  match currentPrice with
  | none => .noAction
  | some price =>
    if price = 0 ∨ self.trading = false then .noAction
    else if db.averageSellPrice = 0 then .sell self.volume
    else if price - db.averageSellPrice > 0
        ∧ jsLtOpt db.amount self.maxVolume = true
        ∧ db.averageSellPrice + getSellClearanceProgressive self.sellClearance db.amount < price
        ∧ jsGtOpt baseBalance self.volume = true then
      .sell self.volume
    else if price - db.averageSellPrice < 0
        ∧ db.averageSellPrice - self.buyClearance ≥ price
        ∧ canBuyWithFlexibility obFetch price self.bufferAsk db.amount = true then
      .buy db.amount
    else .noAction

/-- Model of `getCurrentProfit()`: `0` when `this.currentPrice` is falsy,
else `averageSellPrice.minus(currentPrice).times(sellAmount).div(currentPrice).times(EXCHANGE_FEE).toFixed(5)`. -/
def getCurrentProfit (currentPrice : Option ℚ) (sellAmount averageSellPrice : ℚ) : ℚ :=
  match currentPrice with
  | none => 0
  | some p =>
    if p = 0 then 0
    else bigToFixedQ 5 ((averageSellPrice - p) * sellAmount / p * EXCHANGE_FEE)

/-- Model of `finishBuying()`:
`await this.dbService.updateData(this.getCurrentProfit())`. -/
def finishBuying (currentPrice : Option ℚ) (sellAmount averageSellPrice : ℚ) : DbCall :=
  .updateData (getCurrentProfit currentPrice sellAmount averageSellPrice)

/-- Model of `_sell(amount)`: the order outcome is an input
(`Except.error` when `createMarketSellOrder` throws).  On a confirmed
`closed` status it calls `setData(amount, price, amount * EXCHANGE_FEE_PERCENT)`;
any throw is caught (the function is total and returns `none`: nothing
propagates out of it and nothing is written). -/
def sell (outcome : Except Unit OrderResult) (amount : ℚ) : Option DbCall :=
  match outcome with
  | .error _ => none
  | .ok r =>
    if r.status = "closed" then some (.setData amount r.price (amount * EXCHANGE_FEE_PERCENT))
    else none

/-- Model of `_buy(amount)`: only `status` is destructured from the
order result; on `closed` it calls `finishBuying()` (which writes the
computed profit, not the order's realized price); any throw is caught. -/
def buy (outcome : Except Unit OrderResult) (currentPrice : Option ℚ)
    (sellAmount averageSellPrice : ℚ) : Option DbCall :=
  match outcome with
  | .error _ => none
  | .ok r =>
    if r.status = "closed" then some (finishBuying currentPrice sellAmount averageSellPrice)
    else none

/-- The database write performed by one tick, as a function of the
decision and of the order outcome the chosen branch would observe. -/
def tickEffect (action : TradeAction) (sellOutcome buyOutcome : Except Unit OrderResult)
    (currentPrice : Option ℚ) (sellAmount averageSellPrice : ℚ) : Option DbCall :=
  match action with
  | .noAction => none
  | .sell a => sell sellOutcome a
  | .buy _ => buy buyOutcome currentPrice sellAmount averageSellPrice

/-- The guard of the poll loop `while (this.trading)` in `tick()`. -/
def tickGuard (self : BinanceTrader) : Bool :=
  self.trading

/-- The parsed parameters of a `set` command: `acc[key] = parseFloat(value)`;
a key that is absent or whose value fails `parseFloat` gives `NaN`,
modelled `none` (the handler tests each with `!isNaN(...)`). -/
structure SetParams where
  sell : Option ℚ
  buy : Option ℚ
  limit : Option ℚ
  step : Option ℚ
  buffer : Option ℚ
deriving DecidableEq

/-- The `set` command handler: each valid numeric parameter overwrites
the matching instance field and marks `shouldRestart`; when at least one
was valid the handler runs `this.isTrading = false` (note the name:
`isTrading`, a field nothing else reads -- not `this.trading`, the flag
the poll loop reads). -/
def setCommand (params : SetParams) (self : BinanceTrader) : BinanceTrader :=
  let self := match params.sell with
    | some v => { self with sellClearance := v }
    | none => self
  let self := match params.buy with
    | some v => { self with buyClearance := v }
    | none => self
  let self := match params.limit with
    | some v => { self with maxVolume := some v }
    | none => self
  let self := match params.step with
    | some v => { self with volume := v }
    | none => self
  let self := match params.buffer with
    | some v => { self with bufferAsk := v }
    | none => self
  let shouldRestart := params.sell.isSome || params.buy.isSome || params.limit.isSome
    || params.step.isSome || params.buffer.isSome
  if shouldRestart then { self with isTrading := some false } else self

/-- The instance built by the constructor from the first `configUAH` of
`src/src/index.js` (`clearanceSell: 0.2`, `clearanceBuy: 0.25`,
`sellStepInUsdt: 20`, no `limitBase` key, hence
`maxVolume = Number(undefined) = NaN`); `bufferAsk = 0.04` and
`trading = false` are set by the constructor. -/
def configUAH : BinanceTrader :=
  { maxVolume := none
    volume := 20
    sellClearance := 2 / 10
    buyClearance := 25 / 100
    bufferAsk := 4 / 100
    trading := false
    isTrading := none }

/-- A representative running instance (`trading = true`) with the field
values of the spec's worked examples: volume limit 500, per-order
notional 20, sell clearance 0.1, buy clearance 0.25, default ask
buffer 0.04. -/
def sampleSelf : BinanceTrader :=
  { maxVolume := some 500
    volume := 20
    sellClearance := 1 / 10
    buyClearance := 1 / 4
    bufferAsk := 1 / 25
    trading := true
    isTrading := none }

end Btt

namespace BttLegacy

/-! Model of the earlier variant `src/unnamed/part_000`. -/

/-- Model of `_sell(amount)` of `part_000`: on `closed` status it calls
`setData(amount, price, fee?.cost || 0)`; a throw is caught. -/
def sell (outcome : Except Unit OrderResult) (amount : ℚ) : Option DbCall :=
  match outcome with
  | .error _ => none
  | .ok r =>
    if r.status = "closed" then some (.setData amount r.price (r.feeCost.getD 0))
    else none

/-- Model of `_buy(amount)` of `part_000`: on `status === 'closed' && price`
(a truthy, i.e. nonzero, realized price) it calls `updateData(price)`
with the realized order price; a throw is caught. -/
def buy (outcome : Except Unit OrderResult) : Option DbCall :=
  match outcome with
  | .error _ => none
  | .ok r =>
    if r.status = "closed" ∧ r.price ≠ 0 then some (.updateData r.price)
    else none

end BttLegacy

/-- Specification-side restatement used for claim C6: the resting ask
volume of the top 20 levels priced at or below `limit`, as a plain
`List.sum`. -/
def specAskVolumeTop20 (asks : List (ℚ × ℚ)) (limit : ℚ) : ℚ :=
  (((asks.take 20).filter (fun lvl => decide (lvl.1 ≤ limit))).map (fun lvl => lvl.2)).sum

namespace Btt

/-- Closed form of `getSellClearanceProgressive`: the `toFixed(4)`
rounding commutes with the integer step `rangeIndex * 0.1 = 1000 / 10^4`. -/
lemma getSellClearanceProgressive_eq (s h : ℚ) :
    getSellClearanceProgressive s h
      = ((Int.floor (s * 10 ^ 4 + 1 / 2) + 1000 * Int.floor (h / 100) : ℤ) : ℚ) / 10 ^ 4 := by
  unfold getSellClearanceProgressive toFixedQ
  have key : (s + (Int.floor (h / 100) : ℚ) * (1 / 10)) * 10 ^ 4 + 1 / 2
      = (s * 10 ^ 4 + 1 / 2) + ((1000 * Int.floor (h / 100) : ℤ) : ℚ) := by
    push_cast; ring
  rw [key, Int.floor_add_int]

/-- When the price is not below the recorded average, the order-book
fetch result cannot influence the decision (it is only consulted on the
buy branch, which needs `priceDifference < 0`). -/
lemma trade_ob_irrelevant (self : BinanceTrader) (bb : Option ℚ) (db : DbData)
    (price : ℚ) (ob : Option (List (ℚ × ℚ))) (hd : 0 ≤ price - db.averageSellPrice) :
    trade self bb db (some price) ob = trade self bb db (some price) none := by
  simp only [trade]
  by_cases h0 : price = 0 ∨ self.trading = false
  · rw [if_pos h0, if_pos h0]
  rw [if_neg h0, if_neg h0]
  by_cases havg : db.averageSellPrice = 0
  · rw [if_pos havg, if_pos havg]
  rw [if_neg havg, if_neg havg]
  by_cases hs : price - db.averageSellPrice > 0
      ∧ jsLtOpt db.amount self.maxVolume = true
      ∧ db.averageSellPrice + getSellClearanceProgressive self.sellClearance db.amount < price
      ∧ jsGtOpt bb self.volume = true
  · rw [if_pos hs, if_pos hs]
  rw [if_neg hs, if_neg hs]
  have hb : ¬(price - db.averageSellPrice < 0) := not_lt.mpr hd
  rw [if_neg (fun hc => hb hc.1), if_neg (fun hc => hb hc.1)]

end Btt

/-- Claim C5: for every fixed `sellClearance`, the code's
`_getSellClearanceProgressive` (with its `toFixed(4)` rounding) is
non-decreasing in the held amount, and increasing the held amount by
exactly 100 increases its value by exactly 0.1. -/
theorem sellClearanceProgressive_monotone_step :
    ∀ s h₁ h₂ : ℚ,
      (h₁ ≤ h₂ → Btt.getSellClearanceProgressive s h₁ ≤ Btt.getSellClearanceProgressive s h₂) ∧
      Btt.getSellClearanceProgressive s (h₁ + 100) - Btt.getSellClearanceProgressive s h₁
        = 1 / 10 := by
  intro s h₁ h₂
  constructor
  · intro hle
    rw [Btt.getSellClearanceProgressive_eq, Btt.getSellClearanceProgressive_eq]
    have hf : Int.floor (h₁ / 100) ≤ Int.floor (h₂ / 100) :=
      Int.floor_le_floor (by linarith)
    have hnum : (Int.floor (s * 10 ^ 4 + 1 / 2) + 1000 * Int.floor (h₁ / 100) : ℤ)
        ≤ (Int.floor (s * 10 ^ 4 + 1 / 2) + 1000 * Int.floor (h₂ / 100) : ℤ) := by omega
    have hcast : ((Int.floor (s * 10 ^ 4 + 1 / 2) + 1000 * Int.floor (h₁ / 100) : ℤ) : ℚ)
        ≤ ((Int.floor (s * 10 ^ 4 + 1 / 2) + 1000 * Int.floor (h₂ / 100) : ℤ) : ℚ) := by
      exact_mod_cast hnum
    exact div_le_div_of_nonneg_right hcast (by norm_num)
  · rw [Btt.getSellClearanceProgressive_eq, Btt.getSellClearanceProgressive_eq]
    have key : (h₁ + 100) / 100 = h₁ / 100 + 1 := by ring
    rw [key, Int.floor_add_one]
    push_cast
    ring

/-- Witness for claim C5 at `sellClearance = 0.1`, held amounts 50 and
150: monotone, and the step from 50 to 150 held is exactly 0.1. -/
theorem sellClearanceProgressive_monotone_step_witness :
    (50 : ℚ) ≤ 150 ∧
    Btt.getSellClearanceProgressive (1 / 10) 50 ≤ Btt.getSellClearanceProgressive (1 / 10) 150 ∧
    Btt.getSellClearanceProgressive (1 / 10) (50 + 100)
      - Btt.getSellClearanceProgressive (1 / 10) 50 = 1 / 10 :=
  ⟨by norm_num,
    (sellClearanceProgressive_monotone_step (1 / 10) 50 150).1 (by norm_num),
    (sellClearanceProgressive_monotone_step (1 / 10) 50 150).2⟩

/-- Claim C3: with average price 100, sell clearance 0.1, held amount 50,
volume limit 500, base balance 1000 and notional 20, a current price of
100.05 yields no action (the adaptive threshold is 100.1) and a current
price of 100.2 yields Sell(20); and in general any non-bootstrap sell
decision requires a positive price difference, held amount below the
configured limit, base balance above the notional, and the current price
strictly above average plus the adaptive clearance. -/
theorem sell_decision_examples_and_guard :
    ∀ (self : Btt.BinanceTrader) (bb : Option ℚ) (db : DbData) (price m : ℚ)
      (ob : Option (List (ℚ × ℚ))),
      Btt.trade Btt.sampleSelf (some 1000) ⟨100, 50, 0⟩ (some (10005 / 100)) ob = .noAction ∧
      (100 : ℚ) + Btt.getSellClearanceProgressive (1 / 10) 50 = 1001 / 10 ∧
      Btt.trade Btt.sampleSelf (some 1000) ⟨100, 50, 0⟩ (some (1002 / 10)) ob = .sell 20 ∧
      (self.maxVolume = some m → db.averageSellPrice ≠ 0 →
        Btt.trade self bb db (some price) ob = .sell self.volume →
        price - db.averageSellPrice > 0 ∧ db.amount < m ∧
        jsGtOpt bb self.volume = true ∧
        db.averageSellPrice + Btt.getSellClearanceProgressive self.sellClearance db.amount
          < price) := by
  intro self bb db price m ob
  refine ⟨?_, ?_, ?_, ?_⟩
  · rw [Btt.trade_ob_irrelevant _ _ _ _ _ (by norm_num)]
    norm_num [Btt.trade, Btt.getSellClearanceProgressive, toFixedQ, jsLtOpt, jsGtOpt,
      Btt.sampleSelf]
  · norm_num [Btt.getSellClearanceProgressive, toFixedQ]
  · rw [Btt.trade_ob_irrelevant _ _ _ _ _ (by norm_num)]
    norm_num [Btt.trade, Btt.getSellClearanceProgressive, toFixedQ, jsLtOpt, jsGtOpt,
      Btt.sampleSelf]
  · intro hm havg h
    simp only [Btt.trade] at h
    by_cases h0 : price = 0 ∨ self.trading = false
    · rw [if_pos h0] at h
      exact absurd h (by simp)
    rw [if_neg h0, if_neg havg] at h
    by_cases hs : price - db.averageSellPrice > 0
        ∧ jsLtOpt db.amount self.maxVolume = true
        ∧ db.averageSellPrice + Btt.getSellClearanceProgressive self.sellClearance db.amount
            < price
        ∧ jsGtOpt bb self.volume = true
    · obtain ⟨h1, h2, h3, h4⟩ := hs
      rw [hm] at h2
      exact ⟨h1, by simpa [jsLtOpt] using h2, h4, h3⟩
    rw [if_neg hs] at h
    by_cases hb : price - db.averageSellPrice < 0
        ∧ db.averageSellPrice - self.buyClearance ≥ price
        ∧ Btt.canBuyWithFlexibility ob price self.bufferAsk db.amount = true
    · rw [if_pos hb] at h
      exact absurd h (by simp)
    · rw [if_neg hb] at h
      exact absurd h (by simp)

/-- Witness for claim C3: the sell guard applied at the 100.2 example,
whose sell decision is supplied by the theorem's own concrete conjunct. -/
theorem sell_decision_examples_and_guard_witness :
    Btt.sampleSelf.maxVolume = some 500 ∧
    ((1002 : ℚ) / 10 - 100 > 0 ∧ (50 : ℚ) < 500 ∧
      jsGtOpt (some 1000) Btt.sampleSelf.volume = true ∧
      (100 : ℚ) + Btt.getSellClearanceProgressive Btt.sampleSelf.sellClearance 50
        < 1002 / 10) := by
  have h := sell_decision_examples_and_guard Btt.sampleSelf (some 1000) ⟨100, 50, 0⟩
    (1002 / 10) 500 none
  exact ⟨rfl, h.2.2.2 rfl (by norm_num) h.2.2.1⟩

/-- Claim C4: with average price 100 and buy clearance 0.25, a current
price of 99.7 yields Buy(heldAmount) when the liquidity check passes and
no action when it fails; and in general any buy decision requires a
negative price difference, current price at most average minus buy
clearance, and a passing liquidity check, and buys exactly the held
amount. -/
theorem buy_decision_examples_and_guard :
    ∀ (self : Btt.BinanceTrader) (bb : Option ℚ) (db : DbData) (amount fee price a : ℚ)
      (ob : Option (List (ℚ × ℚ))),
      (self.trading = true → self.buyClearance = 1 / 4 →
        Btt.canBuyWithFlexibility ob (997 / 10) self.bufferAsk amount = true →
        Btt.trade self bb ⟨100, amount, fee⟩ (some (997 / 10)) ob = .buy amount) ∧
      (self.trading = true → self.buyClearance = 1 / 4 →
        Btt.canBuyWithFlexibility ob (997 / 10) self.bufferAsk amount = false →
        Btt.trade self bb ⟨100, amount, fee⟩ (some (997 / 10)) ob = .noAction) ∧
      (Btt.trade self bb db (some price) ob = .buy a →
        price - db.averageSellPrice < 0 ∧
        db.averageSellPrice - self.buyClearance ≥ price ∧
        Btt.canBuyWithFlexibility ob price self.bufferAsk db.amount = true ∧
        a = db.amount) := by
  intro self bb db amount fee price a ob
  have hguard : ∀ t : Btt.BinanceTrader, t.trading = true →
      ¬((997 : ℚ) / 10 = 0 ∨ t.trading = false) := by
    intro t ht hc
    rcases hc with hc | hc
    · norm_num at hc
    · rw [ht] at hc
      cases hc
  refine ⟨?_, ?_, ?_⟩
  · intro ht hbc hcb
    simp only [Btt.trade]
    rw [if_neg (hguard self ht)]
    rw [if_neg (by norm_num : ¬(DbData.averageSellPrice ⟨100, amount, fee⟩ = 0))]
    rw [if_neg (fun hc => absurd hc.1 (by norm_num))]
    rw [if_pos ⟨by norm_num, by rw [hbc]; norm_num, hcb⟩]
  · intro ht hbc hcb
    simp only [Btt.trade]
    rw [if_neg (hguard self ht)]
    rw [if_neg (by norm_num : ¬(DbData.averageSellPrice ⟨100, amount, fee⟩ = 0))]
    rw [if_neg (fun hc => absurd hc.1 (by norm_num))]
    rw [if_neg (fun hc => by rw [hcb] at hc; cases hc.2.2)]
  · intro h
    simp only [Btt.trade] at h
    by_cases h0 : price = 0 ∨ self.trading = false
    · rw [if_pos h0] at h
      exact absurd h (by simp)
    rw [if_neg h0] at h
    by_cases havg : db.averageSellPrice = 0
    · rw [if_pos havg] at h
      exact absurd h (by simp)
    rw [if_neg havg] at h
    by_cases hs : price - db.averageSellPrice > 0
        ∧ jsLtOpt db.amount self.maxVolume = true
        ∧ db.averageSellPrice + Btt.getSellClearanceProgressive self.sellClearance db.amount
            < price
        ∧ jsGtOpt bb self.volume = true
    · rw [if_pos hs] at h
      exact absurd h (by simp)
    rw [if_neg hs] at h
    by_cases hb : price - db.averageSellPrice < 0
        ∧ db.averageSellPrice - self.buyClearance ≥ price
        ∧ Btt.canBuyWithFlexibility ob price self.bufferAsk db.amount = true
    · rw [if_pos hb] at h
      obtain ⟨h1, h2, h3⟩ := hb
      injection h with ha
      exact ⟨h1, h2, h3, ha.symm⟩
    · rw [if_neg hb] at h
      exact absurd h (by simp)

/-- Witness for claim C4: a concrete order book with 100 units resting
at 99.7 makes the liquidity check pass for a held amount of 50, and the
decision at price 99.7 is Buy(50). -/
theorem buy_decision_examples_and_guard_witness :
    Btt.sampleSelf.trading = true ∧ Btt.sampleSelf.buyClearance = 1 / 4 ∧
    Btt.canBuyWithFlexibility (some [(997 / 10, 100)]) (997 / 10) Btt.sampleSelf.bufferAsk 50
      = true ∧
    Btt.trade Btt.sampleSelf none ⟨100, 50, 0⟩ (some (997 / 10)) (some [(997 / 10, 100)])
      = .buy 50 := by
  have hc : Btt.canBuyWithFlexibility (some [(997 / 10, 100)]) (997 / 10)
      Btt.sampleSelf.bufferAsk 50 = true := by
    norm_num [Btt.canBuyWithFlexibility, Btt.sampleSelf]
  exact ⟨rfl, rfl, hc,
    (buy_decision_examples_and_guard Btt.sampleSelf none ⟨100, 50, 0⟩ 50 0 0 0
      (some [(997 / 10, 100)])).1 rfl rfl hc⟩

/-- Claim C6: the liquidity check passes exactly when the summed ask
volume of the top 20 levels priced at or below `currentPrice + buffer`
reaches the held amount; on an order-book fetch failure it returns
`false`, and with a failed fetch the tick's decision is never a buy. -/
theorem canBuyWithFlexibility_spec :
    ∀ (asks : List (ℚ × ℚ)) (price buffer sa : ℚ) (self : Btt.BinanceTrader)
      (bb : Option ℚ) (db : DbData) (cp : Option ℚ),
      (Btt.canBuyWithFlexibility (some asks) price buffer sa = true ↔
        specAskVolumeTop20 asks (price + buffer) ≥ sa) ∧
      Btt.canBuyWithFlexibility none price buffer sa = false ∧
      TradeAction.isBuy (Btt.trade self bb db cp none) = false := by
  intro asks price buffer sa self bb db cp
  refine ⟨?_, rfl, ?_⟩
  · simp only [Btt.canBuyWithFlexibility, specAskVolumeTop20, decide_eq_true_eq]
    rw [List.sum_eq_foldl]
  · cases cp with
    | none => rfl
    | some price =>
      simp only [Btt.trade]
      by_cases h0 : price = 0 ∨ self.trading = false
      · rw [if_pos h0]; rfl
      rw [if_neg h0]
      by_cases havg : db.averageSellPrice = 0
      · rw [if_pos havg]; rfl
      rw [if_neg havg]
      by_cases hs : price - db.averageSellPrice > 0
          ∧ jsLtOpt db.amount self.maxVolume = true
          ∧ db.averageSellPrice + Btt.getSellClearanceProgressive self.sellClearance db.amount
              < price
          ∧ jsGtOpt bb self.volume = true
      · rw [if_pos hs]; rfl
      rw [if_neg hs]
      rw [if_neg (fun hc => by cases hc.2.2)]
      rfl

/-- Witness for claim C6: one resting level of 100 units at 99.7, which
is within the buffered price 99.74, covers a held amount of 50. -/
theorem canBuyWithFlexibility_spec_witness :
    specAskVolumeTop20 [(997 / 10, 100)] (997 / 10 + 1 / 25) ≥ 50 ∧
    Btt.canBuyWithFlexibility (some [(997 / 10, 100)]) (997 / 10) (1 / 25) 50 = true :=
  ⟨by norm_num [specAskVolumeTop20],
    (canBuyWithFlexibility_spec [(997 / 10, 100)] (997 / 10) (1 / 25) 50 Btt.sampleSelf
      none ⟨0, 0, 0⟩ none).1.mpr (by norm_num [specAskVolumeTop20])⟩

/-- Claim C7: persisted state is written only on a confirmed `closed`
order status: in both the current variant and the `part_000` variant,
a thrown order placement (`Except.error`) or any non-`closed` status
makes `_sell` and `_buy` perform no database call at all (and the
modelled functions are total, so nothing propagates). -/
theorem state_write_requires_closed :
    ∀ (r : OrderResult) (amount : ℚ) (cp : Option ℚ) (sa avg : ℚ),
      Btt.sell (.error ()) amount = none ∧
      Btt.buy (.error ()) cp sa avg = none ∧
      BttLegacy.sell (.error ()) amount = none ∧
      BttLegacy.buy (.error ()) = none ∧
      (r.status ≠ "closed" →
        Btt.sell (.ok r) amount = none ∧ Btt.buy (.ok r) cp sa avg = none ∧
        BttLegacy.sell (.ok r) amount = none ∧ BttLegacy.buy (.ok r) = none) := by
  intro r amount cp sa avg
  refine ⟨rfl, rfl, rfl, rfl, fun h => ⟨?_, ?_, ?_, ?_⟩⟩
  · simp [Btt.sell, h]
  · simp [Btt.buy, h]
  · simp [BttLegacy.sell, h]
  · simp [BttLegacy.buy, h]

/-- Witness for claim C7: an order that comes back with status `open`
writes nothing. -/
theorem state_write_requires_closed_witness :
    OrderResult.status ⟨"open", 5, none⟩ = "open" ∧
    Btt.sell (.ok ⟨"open", 5, none⟩) 20 = none :=
  ⟨rfl,
    ((state_write_requires_closed ⟨"open", 5, none⟩ 20 none 0 0).2.2.2.2 (by simp)).1⟩

/-- Claim C8 counterexample: with a fetched price of 0 (a value, hence
an "available" price under the claim's wording), a zero average price,
trading enabled and ample balance, the decision is no action, not
Sell(fixedNotional): the guard `!this.currentPrice` treats 0 as missing. -/
theorem bootstrap_zero_price_cex :
    Btt.trade { Btt.configUAH with trading := true } (some 1000) ⟨0, 0, 0⟩ (some 0) none
      = .noAction ∧
    TradeAction.isSell
      (Btt.trade { Btt.configUAH with trading := true } (some 1000) ⟨0, 0, 0⟩ (some 0) none)
      = false := by
  have h : Btt.trade { Btt.configUAH with trading := true } (some 1000) ⟨0, 0, 0⟩ (some 0) none
      = .noAction := by
    norm_num [Btt.trade]
  exact ⟨h, by rw [h]; rfl⟩

/-- Claim C8 as amended: when the fetched price is available and nonzero
and the trading flag is still set, a zero recorded average price makes
the decision Sell(fixedNotional) regardless of the price's value, the
balance, and the held amount. -/
theorem bootstrap_sell_characterization :
    ∀ (self : Btt.BinanceTrader) (bb : Option ℚ) (amount fee p : ℚ)
      (ob : Option (List (ℚ × ℚ))),
      self.trading = true → p ≠ 0 →
      Btt.trade self bb ⟨0, amount, fee⟩ (some p) ob = .sell self.volume := by
  intro self bb amount fee p ob ht hp
  simp only [Btt.trade]
  rw [if_neg ?_]
  · simp
  · intro hc
    rcases hc with hc | hc
    · exact hp hc
    · rw [ht] at hc
      cases hc

/-- Witness for claim C8's amended statement at price 1 with empty
balance and empty order book. -/
theorem bootstrap_sell_characterization_witness :
    Btt.sampleSelf.trading = true ∧
    Btt.trade Btt.sampleSelf none ⟨0, 0, 0⟩ (some 1) none = .sell 20 :=
  ⟨rfl, bootstrap_sell_characterization Btt.sampleSelf none 0 0 1 none rfl (by norm_num)⟩

/-- Claim C9: when the price fetch fails (`null`), the decision is no
action and the tick performs no database write. -/
theorem null_price_noAction_noWrite :
    ∀ (self : Btt.BinanceTrader) (bb : Option ℚ) (db : DbData)
      (ob : Option (List (ℚ × ℚ))) (o₁ o₂ : Except Unit OrderResult)
      (cp : Option ℚ) (sa avg : ℚ),
      Btt.trade self bb db none ob = .noAction ∧
      Btt.tickEffect (Btt.trade self bb db none ob) o₁ o₂ cp sa avg = none :=
  fun _ _ _ _ _ _ _ _ _ => ⟨rfl, rfl⟩

/-- Claim C10: when the config omits `limitBase`, `maxVolume` is `NaN`
(modelled `none`), the comparison `sellAmount < maxVolume` is false for
every held amount, and with a positive recorded average below the
current price the decision is no action — in particular never a sell,
however far the price exceeds the threshold. -/
theorem missing_limit_never_sells :
    ∀ (self : Btt.BinanceTrader) (bb : Option ℚ) (db : DbData) (price : ℚ)
      (ob : Option (List (ℚ × ℚ))),
      self.maxVolume = none → 0 < db.averageSellPrice → db.averageSellPrice < price →
      (∀ h : ℚ, jsLtOpt h self.maxVolume = false) ∧
      Btt.trade self bb db (some price) ob = .noAction := by
  intro self bb db price ob hm h1 h2
  refine ⟨fun h => by rw [hm]; rfl, ?_⟩
  simp only [Btt.trade]
  by_cases h0 : price = 0 ∨ self.trading = false
  · rw [if_pos h0]
  rw [if_neg h0]
  rw [if_neg (by intro hz; rw [hz] at h1; exact lt_irrefl 0 h1)]
  rw [if_neg (fun hc => by rw [hm] at hc; cases hc.2.1)]
  rw [if_neg (fun hc => absurd hc.1 (by linarith))]

/-- Witness for claim C10: the `configUAH` instance (no `limitBase`),
average 100, held 50, ample balance, price 200 — still no sell. -/
theorem missing_limit_never_sells_witness :
    ({ Btt.configUAH with trading := true } : Btt.BinanceTrader).maxVolume = none ∧
    (0 : ℚ) < 100 ∧ (100 : ℚ) < 200 ∧
    jsLtOpt 50 none = false ∧
    Btt.trade { Btt.configUAH with trading := true } (some 1000) ⟨100, 50, 0⟩ (some 200) none
      = .noAction := by
  have h := missing_limit_never_sells { Btt.configUAH with trading := true } (some 1000)
    ⟨100, 50, 0⟩ 200 none rfl (by norm_num) (by norm_num)
  exact ⟨rfl, by norm_num, by norm_num, h.1 50, h.2⟩

/-- Claim C1 counterexample: a closed buy whose realized order price is
99 (with cached tick price 100, held amount 50, average 110) calls the
update operation with the computed profit 4.99, which is smaller than
the realized price 99 — the realized price is not the argument. -/
theorem buy_ignores_realized_price_cex :
    Btt.buy (.ok ⟨"closed", 99, none⟩) (some 100) 50 110
      = some (.updateData (499 / 100)) ∧
    (499 / 100 : ℚ) < 99 := by
  constructor
  · norm_num [Btt.buy, Btt.finishBuying, Btt.getCurrentProfit, bigToFixedQ, toFixedQ,
      Btt.EXCHANGE_FEE]
  · norm_num

/-- Claim C1 as amended: on a confirmed `closed` buy, the current
variant calls the update operation with the computed current profit
(a function of the cached tick price, not of the realized order price,
which `_buy` discards), while the `part_000` variant calls it with the
realized order price. -/
theorem buy_update_argument :
    ∀ (r : OrderResult) (cp : Option ℚ) (sa avg : ℚ),
      (r.status = "closed" →
        Btt.buy (.ok r) cp sa avg
          = some (.updateData (Btt.getCurrentProfit cp sa avg))) ∧
      (r.status = "closed" → r.price ≠ 0 →
        BttLegacy.buy (.ok r) = some (.updateData r.price)) := by
  intro r cp sa avg
  constructor
  · intro h
    simp [Btt.buy, Btt.finishBuying, h]
  · intro h hp
    simp [BttLegacy.buy, h, hp]

/-- Witness for claim C1's amended statement at the closed order of the
counterexample's shape. -/
theorem buy_update_argument_witness :
    (OrderResult.status ⟨"closed", 99, none⟩ = "closed" ∧
      Btt.buy (.ok ⟨"closed", 99, none⟩) (some 100) 50 110
        = some (.updateData (Btt.getCurrentProfit (some 100) 50 110))) ∧
    (OrderResult.price ⟨"closed", 99, none⟩ = 99 ∧
      BttLegacy.buy (.ok ⟨"closed", 99, none⟩) = some (.updateData 99)) :=
  ⟨⟨rfl, (buy_update_argument ⟨"closed", 99, none⟩ (some 100) 50 110).1 rfl⟩,
    ⟨rfl, (buy_update_argument ⟨"closed", 99, none⟩ (some 100) 50 110).2 rfl
      (by norm_num)⟩⟩

/-- Claim C2 (code bug evidence): after a `set` command with a valid
`sell` parameter on a running instance, the configuration is updated and
`isTrading` is set to `some false`, but the `trading` flag — the one the
poll loop's `while (this.trading)` guard reads — is still `true`, so the
loop does not stop. -/
theorem set_command_leaves_loop_flag_true :
    (Btt.setCommand ⟨some (3 / 10), none, none, none, none⟩ Btt.sampleSelf).trading = true ∧
    (Btt.setCommand ⟨some (3 / 10), none, none, none, none⟩ Btt.sampleSelf).isTrading
      = some false ∧
    (Btt.setCommand ⟨some (3 / 10), none, none, none, none⟩ Btt.sampleSelf).sellClearance
      = 3 / 10 ∧
    Btt.tickGuard (Btt.setCommand ⟨some (3 / 10), none, none, none, none⟩ Btt.sampleSelf)
      = true :=
  ⟨rfl, rfl, rfl, rfl⟩
